import Mathlib

/-!
Verification of the Spotify Web API client embedded in `function-calling.py`
(`SpotifyClient`): credential validation at construction, client-credentials
token lifecycle with cached expiry, the authenticated GET with a single
retry on 401/403, structured error-message extraction, and the search
parameter clamping.

The embedding is a shallow one: the client's mutable fields become an
explicit `ClientState`, `time.time()` becomes an explicit `now` argument,
and the network becomes an oracle `Net : Nat → NetResponse` consumed one
response per HTTP call, with every call recorded in an ordered log.
Python exceptions become an explicit `PyErr` sum carried by `Except`.
-/

namespace Spotify

/-- JSON values as returned by `resp.json()`. Numbers are modelled as
integers (the fields the client reads — `expires_in` — are integral). -/
inductive JVal where
  | jnull
  | jbool (b : Bool)
  | jnum (n : Int)
  | jstr (s : String)
  | jarr (xs : List JVal)
  | jobj (fields : List (String × JVal))

/-- Python truthiness of a JSON value (`if not message:` etc.):
`None`, `False`, `0`, `""`, `[]`, `{}` are falsy. -/
def JVal.truthy : JVal → Bool
  | .jnull => false
  | .jbool b => b
  | .jnum n => n != 0
  | .jstr s => !s.isEmpty
  | .jarr xs => !xs.isEmpty
  | .jobj fs => !fs.isEmpty

/-- Truthiness of an optional environment string (`os.getenv` result):
falsy when unset (`None`) or the empty string. -/
def strTruthy : Option String → Bool
  | none => false
  | some s => !s.isEmpty

/-- Truthiness of the optional cached token (`if not self._access_token`). -/
def optJTruthy : Option JVal → Bool
  | none => false
  | some v => v.truthy

/-- A JSON value assigned to an optional attribute: `resp.json()` maps
JSON `null` to Python `None`, so storing a null value makes the attribute
`None` (and `assert ... is not None` can then fire). -/
def JVal.toPyOpt : JVal → Option JVal
  | .jnull => none
  | v => some v

mutual
/-- Python `repr()` rendering of a JSON value, used for values nested in
containers. String escaping inside `repr` is not modelled (the quotes are
emitted, the characters are kept verbatim); no claim depends on it. -/
def pyRepr : JVal → String
  | .jnull => "None"
  | .jbool b => if b then "True" else "False"
  | .jnum n => toString n
  | .jstr s => "'" ++ s ++ "'"
  | .jarr xs => "[" ++ String.intercalate ", " (pyReprList xs) ++ "]"
  | .jobj fs => "\x7b" ++ String.intercalate ", " (pyReprFields fs) ++ "\x7d"

/-- `repr()` of each element of a list. -/
def pyReprList : List JVal → List String
  | [] => []
  | x :: xs => pyRepr x :: pyReprList xs

/-- `repr()` of each `key: value` entry of a dict. -/
def pyReprFields : List (String × JVal) → List String
  | [] => []
  | (key, v) :: fs => ("'" ++ key ++ "': " ++ pyRepr v) :: pyReprFields fs
end

/-- Python `str()` as applied by f-string interpolation: a string renders
as itself, everything else as its `repr`. -/
def pyStr : JVal → String
  | .jstr s => s
  | .jnull => pyRepr .jnull
  | .jbool b => pyRepr (.jbool b)
  | .jnum n => pyRepr (.jnum n)
  | .jarr xs => pyRepr (.jarr xs)
  | .jobj fs => pyRepr (.jobj fs)

/-- First-match lookup in a dict's field list. -/
def lookupField : List (String × JVal) → String → Option JVal
  | [], _ => none
  | (key, v) :: fs, k => if key == k then some v else lookupField fs k

/-- Exceptions the embedded code can raise. `runtimeError` is the plain
`RuntimeError` raised at construction (the spec's `ConfigurationError`);
`spotifyAPIError` is the domain error type. -/
inductive PyErr where
  | transport (e : String)
  | httpError (status : Nat)
  | valueError
  | keyError (k : String)
  | typeError
  | assertionError
  | spotifyAPIError (msg : String)
  | runtimeError (msg : String)
deriving DecidableEq

/-- Python subscription `payload[key]`: `KeyError` on a dict without the
key, `TypeError` on a non-dict. -/
def getItem : JVal → String → Except PyErr JVal
  | .jobj fs, k =>
    match lookupField fs k with
    | some v => .ok v
    | none => .error (.keyError k)
  | _, _ => .error .typeError

/-- Python `payload.get(key, default)` (only reached on dicts in the
source; total here with the default on non-dicts). -/
def dictGetD : JVal → String → JVal → JVal
  | .jobj fs, k, d => (lookupField fs k).getD d
  | _, _, d => d

/-- Python `int(...)` on a JSON value: identity on integers, 0/1 on
booleans, parse on strings (`ValueError` on failure), `TypeError`
otherwise. -/
def pyInt : JVal → Except PyErr Int
  | .jnum n => .ok n
  | .jbool b => .ok (if b then 1 else 0)
  | .jstr s =>
    match s.trim.toInt? with
    | some n => .ok n
    | none => .error .valueError
  | _ => .error .typeError

/-- `self._expires_at`: a finite timestamp, or `float("inf")` for a
static-token client. -/
inductive XTime where
  | fin (t : Int)
  | inf
deriving DecidableEq

/-- `time.time() >= self._expires_at`, with `now >= inf` always false. -/
def XTime.expired : XTime → Int → Bool
  | .fin t, now => decide (t ≤ now)
  | .inf, _ => false

/-- The mutable fields of a `SpotifyClient` instance. -/
structure ClientState where
  client_id : Option String
  client_secret : Option String
  market : Option String
  token_override : Option String
  access_token : Option JVal
  expires_at : XTime

/-- Environment-variable inputs read by `SpotifyClient.__init__`. -/
structure Env where
  SPOTIFY_CLIENT_ID : Option String
  SPOTIFY_CLIENT_SECRET : Option String
  SPOTIFY_MARKET : Option String
  SPOTIFY_ACCESS_TOKEN : Option String

/-- `SpotifyClient.__init__`: raises `RuntimeError` when no (truthy)
static token is set and the client id or secret is missing; otherwise
yields the initial state with no cached token and `_expires_at = 0`. -/
def SpotifyClient_init (env : Env) : Except PyErr ClientState :=
  if !strTruthy env.SPOTIFY_ACCESS_TOKEN &&
      (!strTruthy env.SPOTIFY_CLIENT_ID || !strTruthy env.SPOTIFY_CLIENT_SECRET) then
    .error (.runtimeError "Missing SPOTIFY_CLIENT_ID or SPOTIFY_CLIENT_SECRET in environment.")
  else
    .ok { client_id := env.SPOTIFY_CLIENT_ID
          client_secret := env.SPOTIFY_CLIENT_SECRET
          market := env.SPOTIFY_MARKET
          token_override := env.SPOTIFY_ACCESS_TOKEN
          access_token := none
          expires_at := .fin 0 }

/-- A response delivered by the network for one HTTP call: either a
completed HTTP response (`status`, parsed JSON body when the body parses,
raw text) or a transport failure (timeout, DNS, connection). -/
inductive NetResponse where
  | ok (status : Nat) (body : Option JVal) (text : String)
  | transportError (e : String)

/-- The network oracle: the response to the n-th HTTP call of the run. -/
abbrev Net := Nat → NetResponse

/-- One HTTP call performed by the client, as recorded in the call log. -/
inductive Call where
  | tokenPost
  | resourceGet (url : String) (params : List (String × JVal)) (auth : String)

/-- Result of running a client method: the value or exception, the state
after the call, the next network index, and the ordered log of HTTP calls
performed. -/
structure Outcome (α : Type) where
  result : Except PyErr α
  state : ClientState
  k : Nat
  calls : List Call

/-- `SpotifyClient._refresh_token`. A truthy override is installed with an
infinite expiry and no network call. Otherwise one POST to the token
endpoint: `raise_for_status` turns 4xx/5xx into `HTTPError`, an unparsable
body raises `ValueError`, `payload["access_token"]` is stored (mutating
the state before `expires_in` is read, as the source does; a JSON-null
token stores `None`), and the expiry becomes
`now + int(payload.get("expires_in", 3600)) - 60`. -/
def refresh_token (now : Int) (st : ClientState) (net : Net) (k : Nat) : Outcome Unit :=
  if strTruthy st.token_override then
    ⟨.ok (), { st with access_token := st.token_override.map .jstr, expires_at := .inf }, k, []⟩
  else
    match net k with
    | .transportError e => ⟨.error (.transport e), st, k + 1, [.tokenPost]⟩
    | .ok status body _ =>
      if 400 ≤ status ∧ status < 600 then
        ⟨.error (.httpError status), st, k + 1, [.tokenPost]⟩
      else
        match body with
        | none => ⟨.error .valueError, st, k + 1, [.tokenPost]⟩
        | some payload =>
          match getItem payload "access_token" with
          | .error e => ⟨.error e, st, k + 1, [.tokenPost]⟩
          | .ok tok =>
            let st1 := { st with access_token := tok.toPyOpt }
            match pyInt (dictGetD payload "expires_in" (.jnum 3600)) with
            | .error e => ⟨.error e, st1, k + 1, [.tokenPost]⟩
            | .ok ei => ⟨.ok (), { st1 with expires_at := .fin (now + ei - 60) }, k + 1, [.tokenPost]⟩

/-- `SpotifyClient._get_token`: return a truthy override directly; else
refresh when no truthy token is cached or the expiry has passed, then
`assert self._access_token is not None` and return the cached token. -/
def get_token (now : Int) (st : ClientState) (net : Net) (k : Nat) : Outcome JVal :=
  if strTruthy st.token_override then
    ⟨.ok (.jstr (st.token_override.getD "")), st, k, []⟩
  else if !optJTruthy st.access_token || st.expires_at.expired now then
    let o := refresh_token now st net k
    match o.result with
    | .error e => ⟨.error e, o.state, o.k, o.calls⟩
    | .ok _ =>
      match o.state.access_token with
      | none => ⟨.error .assertionError, o.state, o.k, o.calls⟩
      | some v => ⟨.ok v, o.state, o.k, o.calls⟩
  else
    match st.access_token with
    | none => ⟨.error .assertionError, st, k, []⟩
    | some v => ⟨.ok v, st, k, []⟩

/-- `SpotifyClient._extract_error_message`: parse the body (an unparsable
body behaves as `{}`), read `error.message` when `error` is a dict or
`error` itself when it is a string; a falsy message falls back to the
trimmed raw text, then to "Unknown Spotify API error"; finally 403 and
404 get guidance text, every other status the generic format. -/
def extract_error_message (status : Nat) (body : Option JVal) (text : String) : String :=
  let payload := body.getD (.jobj [])
  let message : Option JVal :=
    match payload with
    | .jobj fs =>
      match lookupField fs "error" with
      | some (.jobj efs) => lookupField efs "message"
      | some (.jstr s) => some (.jstr s)
      | _ => none
    | _ => none
  let msg : String :=
    match message with
    | some v =>
      if v.truthy then pyStr v
      else if text.trim.isEmpty then "Unknown Spotify API error" else text.trim
    | none => if text.trim.isEmpty then "Unknown Spotify API error" else text.trim
  if status == 403 then
    "Spotify API returned 403 Forbidden: " ++ msg ++ ". " ++
      "For development apps, ensure the requested resource is available in your market " ++
      "and consider using an Authorization Code token (set SPOTIFY_ACCESS_TOKEN)."
  else if status == 404 then
    "Spotify API returned 404 Not Found: " ++ msg ++ ". " ++
      "This usually means one of the supplied IDs is invalid or unavailable in the current market."
  else
    "Spotify API error " ++ toString status ++ ": " ++ msg

/-- The tail of `SpotifyClient._get` applied to the final response:
`resp.raise_for_status()` (4xx/5xx) is caught and re-raised as
`SpotifyAPIError` with the extracted message; on success `resp.json()`
is returned (`ValueError` when the body does not parse). -/
def finishResp (status : Nat) (body : Option JVal) (text : String)
    (st : ClientState) (k : Nat) (calls : List Call) : Outcome JVal :=
  if 400 ≤ status ∧ status < 600 then
    ⟨.error (.spotifyAPIError (extract_error_message status body text)), st, k, calls⟩
  else
    match body with
    | none => ⟨.error .valueError, st, k, calls⟩
    | some j => ⟨.ok j, st, k, calls⟩

/-- `SpotifyClient._get`: acquire a token, GET once; on 401/403 without a
static override, refresh unconditionally, re-acquire the token and GET
exactly once more; then translate any remaining 4xx/5xx into
`SpotifyAPIError` and return the parsed body on success. Transport errors
propagate as-is at every step. -/
def get (now : Int) (st : ClientState) (net : Net) (k : Nat)
    (url : String) (params : List (String × JVal)) : Outcome JVal :=
  let t := get_token now st net k
  match t.result with
  | .error e => ⟨.error e, t.state, t.k, t.calls⟩
  | .ok tok =>
    let auth := "Bearer " ++ pyStr tok
    match net t.k with
    | .transportError e =>
      ⟨.error (.transport e), t.state, t.k + 1, t.calls ++ [.resourceGet url params auth]⟩
    | .ok status body text =>
      let calls1 := t.calls ++ [.resourceGet url params auth]
      if (status == 401 || status == 403) && !strTruthy t.state.token_override then
        let rf := refresh_token now t.state net (t.k + 1)
        match rf.result with
        | .error e => ⟨.error e, rf.state, rf.k, calls1 ++ rf.calls⟩
        | .ok _ =>
          let t2 := get_token now rf.state net rf.k
          match t2.result with
          | .error e => ⟨.error e, t2.state, t2.k, calls1 ++ rf.calls ++ t2.calls⟩
          | .ok tok2 =>
            let auth2 := "Bearer " ++ pyStr tok2
            match net t2.k with
            | .transportError e =>
              ⟨.error (.transport e), t2.state, t2.k + 1,
                calls1 ++ rf.calls ++ t2.calls ++ [.resourceGet url params auth2]⟩
            | .ok status2 body2 text2 =>
              finishResp status2 body2 text2 t2.state (t2.k + 1)
                (calls1 ++ rf.calls ++ t2.calls ++ [.resourceGet url params auth2])
      else
        finishResp status body text t.state (t.k + 1) calls1

/-- The query parameters built by `SpotifyClient.search_tracks`: the limit
is clamped as `max(1, min(limit, 20))`, and a truthy market is appended. -/
def search_tracks_params (st : ClientState) (query : String) (limit : Int) :
    List (String × JVal) :=
  [("q", .jstr query), ("type", .jstr "track"), ("limit", .jnum (max 1 (min limit 20)))] ++
    (if strTruthy st.market then [("market", .jstr (st.market.getD ""))] else [])

/-- `SpotifyClient.search_tracks` up to its `_get` call. The subsequent
mapping of `tracks.items` into the result dictionaries is pure
post-processing of the returned JSON and is not modelled. -/
def search_tracks (now : Int) (st : ClientState) (net : Net) (k : Nat)
    (query : String) (limit : Int) : Outcome JVal :=
  get now st net k "https://api.spotify.com/v1/search" (search_tracks_params st query limit)

/-- One client operation of a run: a bare token acquisition or an
authenticated GET. -/
inductive Op where
  | opGetToken
  | opGet (url : String) (params : List (String × JVal))

/-- Run one operation at its own wall-clock time. -/
def runOp (op : Op) (now : Int) (st : ClientState) (net : Net) (k : Nat) : Outcome JVal :=
  match op with
  | .opGetToken => get_token now st net k
  | .opGet url params => get now st net k url params

/-- The concatenated call log of a whole sequence of operations, each
tagged with the time at which it runs, threading state and the network
index. -/
def runOps : List (Int × Op) → ClientState → Net → Nat → List Call
  | [], _, _, _ => []
  | (now, op) :: rest, st, net, k =>
    let o := runOp op now st net k
    o.calls ++ runOps rest o.state net o.k

/-! ### Helper lemmas -/

/-- With a truthy override, `_refresh_token` installs the override with an
infinite expiry and performs no network call. -/
theorem refresh_token_static (now : Int) (st : ClientState) (net : Net) (k : Nat)
    (s : String) (hov : st.token_override = some s) (hs : s.isEmpty = false) :
    refresh_token now st net k =
      ⟨.ok (), { st with access_token := some (.jstr s), expires_at := .inf }, k, []⟩ := by
  simp [refresh_token, strTruthy, hov, hs]

/-- With a truthy override, `_get_token` returns it without touching the
state or the network. -/
theorem get_token_static (now : Int) (st : ClientState) (net : Net) (k : Nat)
    (s : String) (hov : st.token_override = some s) (hs : s.isEmpty = false) :
    get_token now st net k = ⟨.ok (.jstr s), st, k, []⟩ := by
  simp [get_token, strTruthy, hov, hs]

/-- With a truthy cached token that has not expired (non-static client),
`_get_token` returns the cached token without touching the network. -/
theorem get_token_cached (now : Int) (st : ClientState) (net : Net) (k : Nat)
    (v : JVal) (hov : strTruthy st.token_override = false)
    (hv : st.access_token = some v) (hvt : v.truthy = true)
    (hexp : st.expires_at.expired now = false) :
    get_token now st net k = ⟨.ok v, st, k, []⟩ := by
  simp [get_token, hov, optJTruthy, hv, hvt, hexp]

/-- Successful non-static `_refresh_token`: one token POST, the returned
`access_token` cached, expiry `now + expires_in − 60`. -/
theorem refresh_token_success (now : Int) (st : ClientState) (net : Net) (k : Nat)
    (status : Nat) (payload : JVal) (text : String) (tok : JVal) (ei : Int)
    (hov : strTruthy st.token_override = false)
    (hnet : net k = .ok status (some payload) text)
    (hst : status < 400)
    (htok : getItem payload "access_token" = .ok tok)
    (hei : pyInt (dictGetD payload "expires_in" (.jnum 3600)) = .ok ei) :
    refresh_token now st net k =
      ⟨.ok (), { st with access_token := tok.toPyOpt, expires_at := .fin (now + ei - 60) },
        k + 1, [.tokenPost]⟩ := by
  have h4 : ¬(400 ≤ status ∧ status < 600) := by omega
  simp [refresh_token, hov, hnet, h4, htok, hei]

/-- A non-null JSON value stored into an optional attribute is kept. -/
theorem toPyOpt_of_ne_null (v : JVal) (h : v ≠ .jnull) : v.toPyOpt = some v := by
  cases v <;> first | exact absurd rfl h | rfl

/-- `finishResp` never changes the state, index or call log. -/
theorem finishResp_frame (status : Nat) (body : Option JVal) (text : String)
    (st : ClientState) (k : Nat) (calls : List Call) :
    (finishResp status body text st k calls).state = st ∧
    (finishResp status body text st k calls).k = k ∧
    (finishResp status body text st k calls).calls = calls := by
  unfold finishResp
  split
  · exact ⟨rfl, rfl, rfl⟩
  · cases body <;> exact ⟨rfl, rfl, rfl⟩

/-- For a static client, `_get` performs exactly one resource GET (never a
retry, never a token call) and hands the response to the status check. -/
theorem get_static (now : Int) (st : ClientState) (net : Net) (k : Nat)
    (url : String) (params : List (String × JVal))
    (s : String) (hov : st.token_override = some s) (hs : s.isEmpty = false) :
    get now st net k url params =
      match net k with
      | .transportError e =>
        ⟨.error (.transport e), st, k + 1, [.resourceGet url params ("Bearer " ++ s)]⟩
      | .ok status body text =>
        finishResp status body text st (k + 1) [.resourceGet url params ("Bearer " ++ s)] := by
  have hget := get_token_static now st net k s hov hs
  have hnr : strTruthy st.token_override = false → False := by
    simp [strTruthy, hov, hs]
  simp only [get, hget]
  cases hnk : net k with
  | transportError e => simp [pyStr]
  | ok status body text =>
    simp only [pyStr]
    have : ((status == 401 || status == 403) && !strTruthy st.token_override) = false := by
      simp [strTruthy, hov, hs]
    simp [this]

/-- Whenever token acquisition succeeds, the call log of `_get` is the
acquisition's calls, then the resource GET with that bearer token, then
whatever the retry branch adds. -/
theorem get_calls_shape (now : Int) (st : ClientState) (net : Net) (k : Nat)
    (url : String) (params : List (String × JVal)) (tok : JVal)
    (hok : (get_token now st net k).result = .ok tok) :
    ∃ rest, (get now st net k url params).calls =
      (get_token now st net k).calls ++
        .resourceGet url params ("Bearer " ++ pyStr tok) :: rest := by
  rcases ho : get_token now st net k with ⟨res, st1, k1, calls1⟩
  rw [ho] at hok
  simp only at hok
  subst hok
  simp only [get, ho]
  cases hnk : net k1 with
  | transportError e => exact ⟨[], by simp⟩
  | ok status body text =>
    simp only
    split
    · rcases hr : refresh_token now st1 net (k1 + 1) with ⟨rres, st2, k2, calls2⟩
      cases rres with
      | error e => exact ⟨calls2, by simp⟩
      | ok _ =>
        simp only
        rcases ht2 : get_token now st2 net k2 with ⟨res2, st3, k3, calls3⟩
        cases res2 with
        | error e => exact ⟨calls2 ++ calls3, by simp⟩
        | ok tok2 =>
          simp only
          cases hnk2 : net k3 with
          | transportError e =>
            exact ⟨calls2 ++ calls3 ++ [.resourceGet url params ("Bearer " ++ pyStr tok2)],
              by simp⟩
          | ok status2 body2 text2 =>
            refine ⟨calls2 ++ calls3 ++ [.resourceGet url params ("Bearer " ++ pyStr tok2)], ?_⟩
            have := (finishResp_frame status2 body2 text2 st3 (k3 + 1)
              ((calls1 ++ [.resourceGet url params ("Bearer " ++ pyStr tok)]) ++ calls2 ++
                calls3 ++ [.resourceGet url params ("Bearer " ++ pyStr tok2)])).2.2
            rw [this]
            simp
    · have := (finishResp_frame status body text st1 (k1 + 1)
        (calls1 ++ [.resourceGet url params ("Bearer " ++ pyStr tok)])).2.2
      rw [this]
      exact ⟨[], by simp⟩

/-! ### Claim theorems -/

/-- C2: construction fails with the configuration `RuntimeError` exactly
when no (truthy) static token is set and the client id or the client
secret is missing, and succeeds exactly when a static token is present or
both credentials are present. -/
theorem construction_credentials_iff (env : Env) :
    ((∃ m, SpotifyClient_init env = .error (.runtimeError m)) ↔
      (strTruthy env.SPOTIFY_ACCESS_TOKEN = false ∧
        (strTruthy env.SPOTIFY_CLIENT_ID = false ∨
          strTruthy env.SPOTIFY_CLIENT_SECRET = false))) ∧
    ((∃ st, SpotifyClient_init env = .ok st) ↔
      (strTruthy env.SPOTIFY_ACCESS_TOKEN = true ∨
        (strTruthy env.SPOTIFY_CLIENT_ID = true ∧
          strTruthy env.SPOTIFY_CLIENT_SECRET = true))) := by
  unfold SpotifyClient_init
  cases ha : strTruthy env.SPOTIFY_ACCESS_TOKEN <;>
    cases hb : strTruthy env.SPOTIFY_CLIENT_ID <;>
      cases hc : strTruthy env.SPOTIFY_CLIENT_SECRET <;>
        simp [ha, hb, hc]

/-- C7: for a 404 response whose body is
`{"error": {"message": "invalid id"}}`, the extracted message is the 404
"Not Found" branch and contains both "invalid id" and the guidance text
about supplied IDs. -/
theorem extract_404_invalid_id :
    extract_error_message 404
        (some (.jobj [("error", .jobj [("message", .jstr "invalid id")])])) "" =
      "Spotify API returned 404 Not Found: " ++ "invalid id" ++
        ". This usually means one of the supplied IDs is invalid or unavailable in the current market." := by
  rfl

/-- C9: the `limit` query parameter sent by `search_tracks` is
`max(1, min(limit, 20))`, always within `[1, 20]`. -/
theorem search_limit_clamped (st : ClientState) (query : String) (limit : Int) :
    List.lookup "limit" (search_tracks_params st query limit) =
      some (.jnum (max 1 (min limit 20))) ∧
    1 ≤ max 1 (min limit 20) ∧ max 1 (min limit 20) ≤ 20 := by
  refine ⟨?_, le_max_left 1 _, ?_⟩
  · cases h : strTruthy st.market <;> simp only [search_tracks_params, h] <;> rfl
  · exact max_le (by norm_num) (min_le_right limit 20)

/-- C6: a static-token client receiving HTTP 401 on a resource GET
performs no retry and no token call — the single GET is the whole call
log — and the raised domain error carries the generic
"Spotify API error 401: ..." message, since only 403 and 404 are
special-cased. -/
theorem static_401_surfaces_immediately (now : Int) (st : ClientState) (net : Net)
    (k : Nat) (url : String) (params : List (String × JVal)) (s : String)
    (body : Option JVal) (text : String)
    (hov : st.token_override = some s) (hs : s.isEmpty = false)
    (hnet : net k = .ok 401 body text) :
    (get now st net k url params).result =
      .error (.spotifyAPIError (extract_error_message 401 body text)) ∧
    (get now st net k url params).calls = [.resourceGet url params ("Bearer " ++ s)] ∧
    ∃ m, extract_error_message 401 body text = "Spotify API error 401: " ++ m := by
  have hg := get_static now st net k url params s hov hs
  rw [hg]
  simp only [hnet]
  have h401 : 400 ≤ 401 ∧ 401 < 600 := by omega
  refine ⟨?_, ?_, ?_⟩
  · simp [finishResp, h401]
  · simp [finishResp, h401]
  · unfold extract_error_message
    simp only [show ((401 : Nat) == 403) = false from rfl,
      show ((401 : Nat) == 404) = false from rfl, Bool.false_eq_true, if_false]
    exact ⟨_, rfl⟩

/-- C4: a successful token exchange of a non-static client caches expiry
`now + expires_in − 60`; the lifetime defaults to 3600 when the
`expires_in` field is absent (giving `now + 3540`), and the cached expiry
is always at least one minute before the endpoint-announced expiry
`now + expires_in`. -/
theorem refresh_expiry_formula (now : Int) (st : ClientState) (net : Net) (k : Nat)
    (status : Nat) (payload : JVal) (text : String) (tok : JVal) (ei : Int)
    (hov : strTruthy st.token_override = false)
    (hnet : net k = .ok status (some payload) text)
    (hst : status < 400)
    (htok : getItem payload "access_token" = .ok tok)
    (hei : pyInt (dictGetD payload "expires_in" (.jnum 3600)) = .ok ei) :
    (refresh_token now st net k).result = .ok () ∧
    (refresh_token now st net k).state.expires_at = .fin (now + ei - 60) ∧
    now + ei - 60 + 60 ≤ now + ei ∧
    (∀ fs, payload = .jobj fs → lookupField fs "expires_in" = none →
      (refresh_token now st net k).state.expires_at = .fin (now + 3540)) := by
  have h := refresh_token_success now st net k status payload text tok ei hov hnet hst htok hei
  rw [h]
  refine ⟨rfl, rfl, by omega, ?_⟩
  intro fs hp hl
  have hd : dictGetD payload "expires_in" (.jnum 3600) = .jnum 3600 := by
    rw [hp]; simp [dictGetD, hl]
  rw [hd] at hei
  have he : ei = 3600 := by
    have : (Except.ok 3600 : Except PyErr Int) = .ok ei := hei
    exact (Except.ok.injEq _ _ |>.mp this.symm).symm ▸ rfl
  subst he
  simp only
  congr 1
  omega

/-- When a refresh is needed and the token exchange succeeds,
`_get_token` performs exactly the one token POST and returns the fresh
token. -/
theorem get_token_refresh_success (now : Int) (st : ClientState) (net : Net) (k : Nat)
    (status : Nat) (payload : JVal) (text : String) (tok : JVal) (ei : Int)
    (hov : strTruthy st.token_override = false)
    (hcond : (!optJTruthy st.access_token || st.expires_at.expired now) = true)
    (hnet : net k = .ok status (some payload) text) (hst : status < 400)
    (htok : getItem payload "access_token" = .ok tok) (htn : tok ≠ .jnull)
    (hei : pyInt (dictGetD payload "expires_in" (.jnum 3600)) = .ok ei) :
    get_token now st net k =
      ⟨.ok tok, { st with access_token := some tok, expires_at := .fin (now + ei - 60) },
        k + 1, [.tokenPost]⟩ := by
  have hrf := refresh_token_success now st net k status payload text tok ei hov hnet hst htok hei
  rw [toPyOpt_of_ne_null tok htn] at hrf
  simp [get_token, hov, hcond, hrf]

/-- C5: when the cached token of a non-static client has expired and the
refresh succeeds with an actual (non-null) token, the next `_get`
performs exactly one token-endpoint call and then immediately the
resource GET; with a present, unexpired cached token the resource GET is
the first call, preceded by no token-endpoint call. -/
theorem expired_token_single_refresh_before_get :
    (∀ (now : Int) (st : ClientState) (net : Net) (k : Nat) (url : String)
        (params : List (String × JVal)) (status : Nat) (payload : JVal)
        (text : String) (tok : JVal) (ei : Int),
      strTruthy st.token_override = false →
      st.expires_at.expired now = true →
      net k = .ok status (some payload) text → status < 400 →
      getItem payload "access_token" = .ok tok → tok ≠ .jnull →
      pyInt (dictGetD payload "expires_in" (.jnum 3600)) = .ok ei →
      ∃ rest, (get now st net k url params).calls =
        .tokenPost :: .resourceGet url params ("Bearer " ++ pyStr tok) :: rest) ∧
    (∀ (now : Int) (st : ClientState) (net : Net) (k : Nat) (url : String)
        (params : List (String × JVal)) (v : JVal),
      strTruthy st.token_override = false →
      st.access_token = some v → v.truthy = true →
      st.expires_at.expired now = false →
      ∃ rest, (get now st net k url params).calls =
        .resourceGet url params ("Bearer " ++ pyStr v) :: rest) := by
  constructor
  · intro now st net k url params status payload text tok ei hov hexp hnet hst htok htn hei
    have hcond : (!optJTruthy st.access_token || st.expires_at.expired now) = true := by
      simp [hexp]
    have hgt := get_token_refresh_success now st net k status payload text tok ei
      hov hcond hnet hst htok htn hei
    obtain ⟨rest, hr⟩ := get_calls_shape now st net k url params tok (by rw [hgt])
    refine ⟨rest, ?_⟩
    rw [hr, hgt]
    simp
  · intro now st net k url params v hov hv hvt hexp
    have hgt := get_token_cached now st net k v hov hv hvt hexp
    obtain ⟨rest, hr⟩ := get_calls_shape now st net k url params v (by rw [hgt])
    refine ⟨rest, ?_⟩
    rw [hr, hgt]
    simp

/-- C10: the `assert self._access_token is not None` in `_get_token` is
never violated in the situations `_refresh_token` establishes on a normal
return: a static client's refresh stores the override (non-`None`), and a
non-static client's refresh whose successful token-exchange response
carries a string `access_token` field stores exactly that string, so the
subsequent `_get_token` passes the assert and returns the cached token. -/
theorem get_token_assert_safe :
    (∀ (now : Int) (st : ClientState) (net : Net) (k : Nat) (s : String),
      st.token_override = some s → s.isEmpty = false →
        (refresh_token now st net k).result = .ok () ∧
        (refresh_token now st net k).state.access_token = some (.jstr s)) ∧
    (∀ (now : Int) (st : ClientState) (net : Net) (k : Nat) (status : Nat)
        (payload : JVal) (text : String) (str : String) (ei : Int),
      strTruthy st.token_override = false →
      net k = .ok status (some payload) text → status < 400 →
      getItem payload "access_token" = .ok (.jstr str) →
      pyInt (dictGetD payload "expires_in" (.jnum 3600)) = .ok ei →
        (refresh_token now st net k).result = .ok () ∧
        (refresh_token now st net k).state.access_token = some (.jstr str)) ∧
    (∀ (now : Int) (st : ClientState) (net : Net) (k : Nat) (status : Nat)
        (payload : JVal) (text : String) (str : String) (ei : Int),
      strTruthy st.token_override = false →
      (!optJTruthy st.access_token || st.expires_at.expired now) = true →
      net k = .ok status (some payload) text → status < 400 →
      getItem payload "access_token" = .ok (.jstr str) →
      pyInt (dictGetD payload "expires_in" (.jnum 3600)) = .ok ei →
        (get_token now st net k).result = .ok (.jstr str) ∧
        (get_token now st net k).state.access_token = some (.jstr str)) := by
  refine ⟨?_, ?_, ?_⟩
  · intro now st net k s hov hs
    rw [refresh_token_static now st net k s hov hs]
    exact ⟨rfl, rfl⟩
  · intro now st net k status payload text str ei hov hnet hst htok hei
    have h := refresh_token_success now st net k status payload text (.jstr str) ei
      hov hnet hst htok hei
    rw [h]
    exact ⟨rfl, rfl⟩
  · intro now st net k status payload text str ei hov hcond hnet hst htok hei
    have h := get_token_refresh_success now st net k status payload text (.jstr str) ei
      hov hcond hnet hst htok (fun hc => JVal.noConfusion hc) hei
    rw [h]
    exact ⟨rfl, rfl⟩

/-- C1 (amended): a non-static client holding a valid cached token whose
GET is answered 403 and whose retried GET is answered 200 performs exactly
three calls — the failed resource GET, one token POST, the successful
resource GET with the fresh token — and returns the parsed 200 payload. -/
theorem retry_after_403_three_calls (now : Int) (st : ClientState) (net : Net) (k : Nat)
    (url : String) (params : List (String × JVal)) (v : JVal)
    (b0 : Option JVal) (t0 : String) (status1 : Nat) (payload : JVal) (txt1 : String)
    (tok : JVal) (ei : Int) (j : JVal) (t2txt : String)
    (hov : strTruthy st.token_override = false)
    (hv : st.access_token = some v) (hvt : v.truthy = true)
    (hexp : st.expires_at.expired now = false)
    (hnet0 : net k = .ok 403 b0 t0)
    (hnet1 : net (k + 1) = .ok status1 (some payload) txt1) (hst1 : status1 < 400)
    (htok : getItem payload "access_token" = .ok tok) (htokt : tok.truthy = true)
    (hei : pyInt (dictGetD payload "expires_in" (.jnum 3600)) = .ok ei)
    (hei60 : 60 < ei)
    (hnet2 : net (k + 2) = .ok 200 (some j) t2txt) :
    (get now st net k url params).result = .ok j ∧
    (get now st net k url params).calls =
      [.resourceGet url params ("Bearer " ++ pyStr v), .tokenPost,
        .resourceGet url params ("Bearer " ++ pyStr tok)] ∧
    (get now st net k url params).calls.length = 3 := by
  have hgt1 := get_token_cached now st net k v hov hv hvt hexp
  have hrf := refresh_token_success now st net (k + 1) status1 payload txt1 tok ei
    hov hnet1 hst1 htok hei
  rw [toPyOpt_of_ne_null tok (by intro h; subst h; simp [JVal.truthy] at htokt)] at hrf
  have hexp2 : (XTime.fin (now + ei - 60)).expired now = false := by
    simp only [XTime.expired, decide_eq_false_iff_not]
    omega
  have hgt2 := get_token_cached now
    { st with access_token := some tok, expires_at := XTime.fin (now + ei - 60) }
    net (k + 2) tok hov rfl htokt hexp2
  have hcnd : ((403 == 401 || 403 == 403) && !strTruthy st.token_override) = true := by
    simp [hov]
  have h200 : ¬(400 ≤ 200 ∧ 200 < 600) := by omega
  simp only [get, hgt1, hnet0, hrf, hgt2, hnet2, hcnd, List.nil_append, if_true,
    finishResp, h200, if_false]
  refine ⟨trivial, by simp, by simp⟩

/-- A single operation of a static-token client leaves the state unchanged
and never logs a token POST. -/
theorem runOp_static (op : Op) (now : Int) (st : ClientState) (net : Net) (k : Nat)
    (s : String) (hov : st.token_override = some s) (hs : s.isEmpty = false) :
    (runOp op now st net k).state = st ∧
    Call.tokenPost ∉ (runOp op now st net k).calls := by
  cases op with
  | opGetToken =>
    simp [runOp, get_token_static now st net k s hov hs]
  | opGet url params =>
    have hg := get_static now st net k url params s hov hs
    simp only [runOp, hg]
    cases hnk : net k with
    | transportError e => simp
    | ok status body text =>
      obtain ⟨h1, _, h3⟩ := finishResp_frame status body text st (k + 1)
        [.resourceGet url params ("Bearer " ++ s)]
      rw [h1, h3]
      simp

/-- C3: a client configured with a (truthy) static token never issues a
token-endpoint POST, over any sequence of `get_token`/`get` operations at
arbitrary times against an arbitrary network. -/
theorem static_client_never_token_post (ops : List (Int × Op)) (st : ClientState)
    (net : Net) (k : Nat) (s : String)
    (hov : st.token_override = some s) (hs : s.isEmpty = false) :
    Call.tokenPost ∉ runOps ops st net k := by
  induction ops generalizing st k hov with
  | nil => simp [runOps]
  | cons p rest ih =>
    obtain ⟨now, op⟩ := p
    simp only [runOps, List.mem_append]
    obtain ⟨hstate, hcalls⟩ := runOp_static op now st net k s hov hs
    rintro (h | h)
    · exact hcalls h
    · rw [hstate] at h
      exact ih _ _ hov h

/-- `payload[key]` fails only with `KeyError` or `TypeError`. -/
theorem getItem_error_cases (p : JVal) (key : String) (e : PyErr)
    (h : getItem p key = .error e) : (∃ s, e = .keyError s) ∨ e = .typeError := by
  cases p <;> simp [getItem] at h <;> try exact Or.inr h.symm
  case jobj fs =>
    cases hl : lookupField fs key <;> rw [hl] at h <;> simp at h
    exact Or.inl ⟨key, h.symm⟩

/-- `int(...)` fails only with `ValueError` or `TypeError`. -/
theorem pyInt_error_cases (v : JVal) (e : PyErr)
    (h : pyInt v = .error e) : e = .valueError ∨ e = .typeError := by
  cases v <;> simp [pyInt] at h
  case jstr s =>
    cases hl : s.trim.toInt? <;> rw [hl] at h <;> simp at h
    exact Or.inl h.symm
  all_goals first
    | exact Or.inl h.symm
    | exact Or.inr h.symm

/-- `_refresh_token` fails only with a transport error, an `HTTPError`,
a `ValueError`, a `KeyError` or a `TypeError` — never with the domain
error or an assertion failure. -/
theorem refresh_error_cases (now : Int) (st : ClientState) (net : Net) (k : Nat)
    (e : PyErr) (h : (refresh_token now st net k).result = .error e) :
    (∃ s, e = .transport s) ∨ (∃ n, e = .httpError n) ∨ e = .valueError ∨
      (∃ s, e = .keyError s) ∨ e = .typeError := by
  unfold refresh_token at h
  split at h
  · simp at h
  · rcases hnk : net k with ⟨status, body, text⟩ | s <;> rw [hnk] at h
    case transportError =>
      simp only at h
      injection h with h
      exact Or.inl ⟨s, h.symm⟩
    · simp only at h
      split at h
      · injection h with h
        exact Or.inr (Or.inl ⟨status, h.symm⟩)
      · cases body with
        | none =>
          injection h with h
          exact Or.inr (Or.inr (Or.inl h.symm))
        | some payload =>
          simp only at h
          rcases hgi : getItem payload "access_token" with e' | tok <;> rw [hgi] at h <;>
            simp only at h
          · injection h with h
            subst h
            rcases getItem_error_cases payload "access_token" e' hgi with h | h
            · exact Or.inr (Or.inr (Or.inr (Or.inl h)))
            · exact Or.inr (Or.inr (Or.inr (Or.inr h)))
          · rcases hpi : pyInt (dictGetD payload "expires_in" (.jnum 3600)) with e' | ei <;>
              rw [hpi] at h <;> simp only at h
            · injection h with h
              subst h
              rcases pyInt_error_cases _ e' hpi with h | h
              · exact Or.inr (Or.inr (Or.inl h))
              · exact Or.inr (Or.inr (Or.inr (Or.inr h)))
            · simp at h

/-- C8: token-acquisition failures (transport errors and non-2xx
responses of the token POST) propagate unmodified and are never wrapped
into the domain error; transport errors on the resource GET propagate
as-is with no retry (for static and for cached-token clients alike). -/
theorem errors_propagate_unmodified :
    (∀ (now : Int) (st : ClientState) (net : Net) (k : Nat) (e : String),
      strTruthy st.token_override = false → net k = .transportError e →
        (refresh_token now st net k).result = .error (.transport e)) ∧
    (∀ (now : Int) (st : ClientState) (net : Net) (k : Nat) (status : Nat)
        (body : Option JVal) (text : String),
      strTruthy st.token_override = false → net k = .ok status body text →
      400 ≤ status → status < 600 →
        (refresh_token now st net k).result = .error (.httpError status)) ∧
    (∀ (now : Int) (st : ClientState) (net : Net) (k : Nat) (url : String)
        (params : List (String × JVal)) (s : String) (e : String),
      st.token_override = some s → s.isEmpty = false → net k = .transportError e →
        (get now st net k url params).result = .error (.transport e) ∧
        (get now st net k url params).calls =
          [.resourceGet url params ("Bearer " ++ s)]) ∧
    (∀ (now : Int) (st : ClientState) (net : Net) (k : Nat) (url : String)
        (params : List (String × JVal)) (v : JVal) (e : String),
      strTruthy st.token_override = false → st.access_token = some v →
      v.truthy = true → st.expires_at.expired now = false →
      net k = .transportError e →
        (get now st net k url params).result = .error (.transport e) ∧
        (get now st net k url params).calls =
          [.resourceGet url params ("Bearer " ++ pyStr v)]) ∧
    (∀ (now : Int) (st : ClientState) (net : Net) (k : Nat) (m : String),
      (refresh_token now st net k).result ≠ .error (.spotifyAPIError m)) := by
  refine ⟨?_, ?_, ?_, ?_, ?_⟩
  · intro now st net k e hov hnet
    simp [refresh_token, hov, hnet]
  · intro now st net k status body text hov hnet h1 h2
    simp [refresh_token, hov, hnet, show 400 ≤ status ∧ status < 600 from ⟨h1, h2⟩]
  · intro now st net k url params s e hov hs hnet
    rw [get_static now st net k url params s hov hs, hnet]
    exact ⟨rfl, rfl⟩
  · intro now st net k url params v e hov hv hvt hexp hnet
    have hgt := get_token_cached now st net k v hov hv hvt hexp
    simp [get, hgt, hnet]
  · intro now st net k m h
    rcases refresh_error_cases now st net k _ h with ⟨s, hs⟩ | ⟨n, hn⟩ | hv | ⟨s, hs⟩ | ht <;>
      simp_all

/-! ### Concrete fixtures -/

/-- A successful token-endpoint payload. -/
def pObj : JVal := .jobj [("access_token", .jstr "newtok"), ("expires_in", .jnum 3600)]

/-- A non-static client holding a valid cached token (the state after a
successful refresh at time 1460). -/
def stCached : ClientState :=
  { client_id := some "id", client_secret := some "sec", market := none,
    token_override := none, access_token := some (.jstr "oldtok"), expires_at := .fin 5000 }

/-- The same client after its cached token's expiry has elapsed by
time 1000. -/
def stExpired : ClientState :=
  { client_id := some "id", client_secret := some "sec", market := none,
    token_override := none, access_token := some (.jstr "oldtok"), expires_at := .fin 500 }

/-- A static-token client. -/
def stStatic : ClientState :=
  { client_id := none, client_secret := none, market := none,
    token_override := some "tokS", access_token := none, expires_at := .fin 0 }

/-- Network script: 403 on the first call, a successful token exchange on
the second, 200 with a payload on the third. -/
def netRetry : Net := fun n =>
  if n == 0 then .ok 403 (some (.jobj [("error", .jstr "forbidden")])) "x"
  else if n == 1 then .ok 200 (some pObj) ""
  else .ok 200 (some (.jobj [("payload", .jnum 7)])) ""

/-- Network script: every call answers as a successful token exchange. -/
def netTok : Net := fun _ => .ok 200 (some pObj) ""

/-- Network script: every call answers 401 with a structured error body. -/
def net401 : Net := fun _ =>
  .ok 401 (some (.jobj [("error", .jobj [("message", .jstr "bad")])])) "t"

/-- Network script: every call fails at the transport level. -/
def netDown : Net := fun _ => .transportError "boom"

/-- Network script: every call answers 500 with an unparsable empty body. -/
def net500 : Net := fun _ => .ok 500 none ""

/-- C1 as stated is false: in the 403-then-200 scenario the client
performs three token-endpoint-or-resource calls (the claim's own
enumeration), not two, while still returning the successful payload. -/
theorem retry_after_403_not_two_calls :
    (get 1000 stCached netRetry 0 "u" []).calls.length = 3 ∧
    ¬((get 1000 stCached netRetry 0 "u" []).calls.length = 2) ∧
    (get 1000 stCached netRetry 0 "u" []).result = .ok (.jobj [("payload", .jnum 7)]) := by
  have h : (get 1000 stCached netRetry 0 "u" []).calls.length = 3 := rfl
  exact ⟨h, by omega, rfl⟩

/-! ### Witnesses -/

/-- Witness for C1 (amended) at the concrete 403-then-200 scenario. -/
theorem retry_after_403_three_calls_witness :
    (get 1000 stCached netRetry 0 "u" []).result = .ok (.jobj [("payload", .jnum 7)]) ∧
    (get 1000 stCached netRetry 0 "u" []).calls =
      [.resourceGet "u" [] ("Bearer " ++ pyStr (.jstr "oldtok")), .tokenPost,
        .resourceGet "u" [] ("Bearer " ++ pyStr (.jstr "newtok"))] ∧
    (get 1000 stCached netRetry 0 "u" []).calls.length = 3 :=
  retry_after_403_three_calls 1000 stCached netRetry 0 "u" [] (.jstr "oldtok")
    (some (.jobj [("error", .jstr "forbidden")])) "x" 200 pObj "" (.jstr "newtok") 3600
    (.jobj [("payload", .jnum 7)]) "" rfl rfl rfl rfl rfl rfl (by omega) rfl rfl rfl
    (by omega) rfl

/-- Witness for C3 at a concrete static client and operation sequence. -/
theorem static_client_never_token_post_witness :
    Call.tokenPost ∉
      runOps [((0 : Int), .opGetToken), ((5000 : Int), .opGet "u" [])] stStatic netRetry 0 :=
  static_client_never_token_post _ stStatic netRetry 0 "tokS" rfl rfl

/-- Witness for C4 at a concrete successful token exchange. -/
theorem refresh_expiry_formula_witness :
    (refresh_token 1000 stCached netTok 0).result = .ok () ∧
    (refresh_token 1000 stCached netTok 0).state.expires_at = .fin (1000 + 3600 - 60) ∧
    (1000 : Int) + 3600 - 60 + 60 ≤ 1000 + 3600 ∧
    (∀ fs, pObj = .jobj fs → lookupField fs "expires_in" = none →
      (refresh_token 1000 stCached netTok 0).state.expires_at = .fin (1000 + 3540)) :=
  refresh_expiry_formula 1000 stCached netTok 0 200 pObj "" (.jstr "newtok") 3600
    rfl rfl (by omega) rfl rfl

/-- Witness for C5 at a concrete expired-token and valid-token client. -/
theorem expired_token_single_refresh_before_get_witness :
    (∃ rest, (get 1000 stExpired netTok 0 "u" []).calls =
      .tokenPost :: .resourceGet "u" [] ("Bearer " ++ pyStr (.jstr "newtok")) :: rest) ∧
    (∃ rest, (get 1000 stCached netTok 0 "u" []).calls =
      .resourceGet "u" [] ("Bearer " ++ pyStr (.jstr "oldtok")) :: rest) :=
  ⟨expired_token_single_refresh_before_get.1 1000 stExpired netTok 0 "u" [] 200 pObj ""
      (.jstr "newtok") 3600 rfl rfl rfl (by omega) rfl (fun hc => JVal.noConfusion hc) rfl,
    expired_token_single_refresh_before_get.2 1000 stCached netTok 0 "u" [] (.jstr "oldtok")
      rfl rfl rfl rfl⟩

/-- Witness for C6 at a concrete static client receiving 401. -/
theorem static_401_surfaces_immediately_witness :
    (get 0 stStatic net401 0 "u" []).result =
      .error (.spotifyAPIError (extract_error_message 401
        (some (.jobj [("error", .jobj [("message", .jstr "bad")])])) "t")) ∧
    (get 0 stStatic net401 0 "u" []).calls = [.resourceGet "u" [] ("Bearer " ++ "tokS")] ∧
    ∃ m, extract_error_message 401
        (some (.jobj [("error", .jobj [("message", .jstr "bad")])])) "t" =
      "Spotify API error 401: " ++ m :=
  static_401_surfaces_immediately 0 stStatic net401 0 "u" [] "tokS"
    (some (.jobj [("error", .jobj [("message", .jstr "bad")])])) "t" rfl rfl rfl

/-- Witness for C8 at concrete transport-failure and 500 networks. -/
theorem errors_propagate_unmodified_witness :
    (refresh_token 0 stCached netDown 0).result = .error (.transport "boom") ∧
    (refresh_token 0 stCached net500 0).result = .error (.httpError 500) ∧
    ((get 0 stStatic netDown 0 "u" []).result = .error (.transport "boom") ∧
      (get 0 stStatic netDown 0 "u" []).calls = [.resourceGet "u" [] ("Bearer " ++ "tokS")]) ∧
    ((get 1000 stCached netDown 0 "u" []).result = .error (.transport "boom") ∧
      (get 1000 stCached netDown 0 "u" []).calls =
        [.resourceGet "u" [] ("Bearer " ++ pyStr (.jstr "oldtok"))]) ∧
    (refresh_token 0 stCached netDown 0).result ≠ .error (.spotifyAPIError "x") :=
  ⟨errors_propagate_unmodified.1 0 stCached netDown 0 "boom" rfl rfl,
    errors_propagate_unmodified.2.1 0 stCached net500 0 500 none "" rfl rfl
      (by omega) (by omega),
    errors_propagate_unmodified.2.2.1 0 stStatic netDown 0 "u" [] "tokS" "boom" rfl rfl rfl,
    errors_propagate_unmodified.2.2.2.1 1000 stCached netDown 0 "u" [] (.jstr "oldtok")
      "boom" rfl rfl rfl rfl rfl,
    errors_propagate_unmodified.2.2.2.2 0 stCached netDown 0 "x"⟩

/-- Witness for C10 at a concrete static refresh and a concrete
string-token exchange. -/
theorem get_token_assert_safe_witness :
    ((refresh_token 0 stStatic netTok 0).result = .ok () ∧
      (refresh_token 0 stStatic netTok 0).state.access_token = some (.jstr "tokS")) ∧
    ((refresh_token 1000 stExpired netTok 0).result = .ok () ∧
      (refresh_token 1000 stExpired netTok 0).state.access_token = some (.jstr "newtok")) ∧
    ((get_token 1000 stExpired netTok 0).result = .ok (.jstr "newtok") ∧
      (get_token 1000 stExpired netTok 0).state.access_token = some (.jstr "newtok")) :=
  ⟨get_token_assert_safe.1 0 stStatic netTok 0 "tokS" rfl rfl,
    get_token_assert_safe.2.1 1000 stExpired netTok 0 200 pObj "" "newtok" 3600
      rfl rfl (by omega) rfl rfl,
    get_token_assert_safe.2.2 1000 stExpired netTok 0 200 pObj "" "newtok" 3600
      rfl rfl rfl (by omega) rfl rfl⟩

end Spotify
